import Mathlib

/-
Verification of the local-history snapshot plugin (src/history.py) against its
natural-language specification.

Shallow embedding conventions:
* The program runs on Linux (platform.system() = "Linux"), Python 3 (PY2 false),
  so only the POSIX branches of the code are modelled.
* An absolute file path is represented by the pair (dir, name), where dir is the
  Python string os.path.dirname(path) (a List Char) and name is
  os.path.basename(path) (a List Char, containing no slash).  The full path is
  dir ++ "/" ++ name.  Directories are represented by their path strings.
* The filesystem is a finite association list of file entries (directory,
  base name, file data), a list of existing directories, and the process current
  working directory.  File data is the byte content (List Nat) plus the
  st_mtime stamp (Int, seconds).  Directory entries carry no mtime and the
  model's glob only matches regular files (a history directory holds only
  snapshot files).
* time.time() and dt.now().strftime("%Y-%m-%d_%H.%M.%S") are passed in as the
  parameters now : Int and nowStr : List Char of one record call.
* Python library calls are modelled by their documented semantics:
  glob.glob(pat) with a relative pattern lists entries of the current working
  directory whose names match pat (for pat = "*" ++ name: names ending in name
  and not starting with a dot); os.path.getmtime and os.path.getsize raise
  FileNotFoundError on a missing path; list.sort(key, reverse=True) is a stable
  descending sort and raises whatever the key function raises;
  filecmp.cmp(a, b) with default shallow=True returns True when the
  (size, mtime) stat signatures agree, and otherwise compares byte contents;
  shutil.copyfile(src, dst) creates or truncates dst at its final name and
  streams bytes into it, so a source read fault mid-copy leaves dst holding a
  prefix of the source bytes.  The fault : Option Nat parameter injects such a
  fault: some k means the source read fails after k bytes, none means the copy
  succeeds.  n - None raises TypeError.
* Exceptions are modelled by the PyErr component of the result; state mutations
  made before the raise persist (the exception escapes the worker thread).
-/

/-- Python exceptions that the modelled code can raise. -/
inductive PyErr where
  | fileNotFound
  | typeError
  | ioError
  | indexError
deriving DecidableEq

/-- Data of one regular file: byte content and st_mtime. -/
structure FileData where
  content : List Nat
  mtime : Int
deriving DecidableEq

/-- One filesystem entry: containing directory, base name, file data. -/
structure FileEntry where
  dir : List Char
  name : List Char
  data : FileData
deriving DecidableEq

/-- Filesystem state: regular files, existing directories, process cwd. -/
structure FS where
  files : List FileEntry
  dirs : List (List Char)
  cwd : List Char
deriving DecidableEq

/-- Look up a file's data by (directory, base name) in an entry list. -/
def lookupIn : List FileEntry → List Char → List Char → Option FileData
  | [], _, _ => none
  | e :: es, d, n => if e.dir = d ∧ e.name = n then some e.data else lookupIn es d n

/-- Look up a file's data by (directory, base name). -/
def fsLookup (fs : FS) (d n : List Char) : Option FileData :=
  lookupIn fs.files d n

/-- Create or overwrite a file (overwrite keeps the directory-listing slot,
creation appends, matching how the model keeps listdir order). -/
def writeIn : List FileEntry → List Char → List Char → FileData → List FileEntry
  | [], d, n, v => [⟨d, n, v⟩]
  | e :: es, d, n, v =>
    if e.dir = d ∧ e.name = n then ⟨d, n, v⟩ :: es else e :: writeIn es d n v

/-- shutil.copyfile's effect on the destination: content plus fresh mtime. -/
def fsWrite (fs : FS) (d n : List Char) (content : List Nat) (mtime : Int) : FS :=
  { fs with files := writeIn fs.files d n ⟨content, mtime⟩ }

/-- os.remove: drop the entry with the given directory and base name. -/
def removeIn : List FileEntry → List Char → List Char → List FileEntry
  | [], _, _ => []
  | e :: es, d, n =>
    if e.dir = d ∧ e.name = n then removeIn es d n else e :: removeIn es d n

/-- os.remove on the filesystem state. -/
def fsRemove (fs : FS) (d n : List Char) : FS :=
  { fs with files := removeIn fs.files d n }

/-- st_mtime of a file, defaulting to 0 when absent (only used under a
presence hypothesis). -/
def mtimeD (fs : FS) (d n : List Char) : Int :=
  match fsLookup fs d n with
  | some data => data.mtime
  | none => 0

/-- posixpath.join for two components: an absolute second component discards
the first; otherwise they are joined with a slash unless one is already
there. -/
def path_join (a b : List Char) : List Char :=
  if b.head? = some '/' then b
  else if a = [] ∨ a.getLast? = some '/' then a ++ b
  else a ++ '/' :: b

/-- HISTORY_ROOT = os.path.join(os.path.abspath(os.path.expanduser("~")),
".sublime", "history"), as a function of the (absolute) home directory. -/
def HISTORY_ROOT (home : List Char) : List Char :=
  path_join (path_join home ((".sublime").data)) (("history").data)

/-- Status message shown when no history entries are offered. -/
def NO_HISTORY_MSG : List Char := ("No local history found").data

/-- Status message shown when no incremental diff pair is available. -/
def NO_INCREMENTAL_DIFF : List Char := ("No incremental diff found").data

/-- get_file_dir (POSIX branch) applied to the source file's directory string:
trim the leading root character, then join onto HISTORY_ROOT.  The hr
parameter is the computed HISTORY_ROOT value. -/
def get_file_dir (hr fdir : List Char) : List Char :=
  path_join hr (fdir.drop 1)

/-- The glob pattern "*" ++ fname matches a directory entry: its name ends
with fname and (glob's hidden-file rule for patterns starting with *) does not
start with a dot.  This is the per-entry test, parameterised by the directory
being listed. -/
def snapshot_entry (d fname : List Char) (e : FileEntry) : Bool :=
  decide (e.dir = d) && fname.isSuffixOf e.name && !(decide (e.name.head? = some '.'))

/-- Names of the entries of directory d matched by the pattern "*" ++ fname,
in directory-listing order. -/
def dir_matches (fs : FS) (d fname : List Char) : List (List Char) :=
  (fs.files.filter (snapshot_entry d fname)).map FileEntry.name

/-- glob.glob("*" + file_name): the pattern is relative, so it lists the
process current working directory (not the history directory). -/
def glob_matches (fs : FS) (fname : List Char) : List (List Char) :=
  dir_matches fs fs.cwd fname

/-- Stable insertion (descending by key) used to model list.sort(key=...,
reverse=True). -/
def insertByDesc (key : List Char → Int) (x : List Char) :
    List (List Char) → List (List Char)
  | [] => [x]
  | y :: ys => if key x < key y then y :: insertByDesc key x ys else x :: y :: ys

/-- Stable descending sort by key, modelling list.sort(key=..., reverse=True). -/
def sortByDesc (key : List Char → Int) : List (List Char) → List (List Char)
  | [] => []
  | x :: xs => insertByDesc key x (sortByDesc key xs)

/-- history_files.sort(key=lambda f: os.path.getmtime(os.path.join(history_dir,
f)), reverse=True): each globbed name is stat'ed at history_dir; a name that
does not resolve there makes the key function raise FileNotFoundError. -/
def sort_history_files (fs : FS) (history_dir : List Char)
    (names : List (List Char)) : Except PyErr (List (List Char)) :=
  if names.all (fun n => (fsLookup fs history_dir n).isSome)
  then Except.ok (sortByDesc (fun n => mtimeD fs history_dir n) names)
  else Except.error PyErr.fileNotFound

/-- Lines 88-90 of history.py (repeated verbatim in every command): glob the
cwd for "*" ++ file_name, then sort by mtime taken at history_dir, newest
first. -/
def get_history_files (fs : FS) (history_dir fname : List Char) :
    Except PyErr (List (List Char)) :=
  sort_history_files fs history_dir (glob_matches fs fname)

/-- filecmp.cmp with default shallow=True: equal (size, mtime) stat signatures
compare as equal without reading; otherwise byte contents are compared. -/
def filecmp_cmp (a b : FileData) : Bool :=
  (decide (a.content.length = b.content.length) && decide (a.mtime = b.mtime))
    || decide (a.content = b.content)

/-- os.makedirs(history_dir) guarded by os.path.exists. -/
def ensure_history_dir (fs : FS) (hd : List Char) : FS :=
  if hd ∈ fs.dirs then fs else { fs with dirs := hd :: fs.dirs }

/-- Lines 93-95: skip when a most recent history file exists and filecmp.cmp
says it equals the current source file. -/
def skip_unchanged (fs : FS) (history_dir : List Char) (src : FileData)
    (history_files : List (List Char)) : Bool :=
  match history_files with
  | [] => false
  | h :: _ =>
    match fsLookup fs history_dir h with
    | some d => filecmp_cmp src d
    | none => false

/-- Lines 102-107: for each previously globbed name, stat it at history_dir
and delete it when mtime < now - FILE_HISTORY_RETENTION.  retention = none
models the unset (None) setting: now - None raises TypeError at the first
visited file.  The comparison's left operand (getmtime) is evaluated first, as
in Python. -/
def remove_old_files (retention : Option Int) (now : Int)
    (history_dir : List Char) :
    List (List Char) → FS → FS × Option PyErr
  | [], fs => (fs, none)
  | f :: rest, fs =>
    match fsLookup fs history_dir f with
    | none => (fs, some PyErr.fileNotFound)
    | some data =>
      match retention with
      | none => (fs, some PyErr.typeError)
      | some r =>
        remove_old_files (some r) now history_dir rest
          (if data.mtime < now - r then fsRemove fs history_dir f else fs)

/-- HistorySave.process_history (lines 72-107).  Parameters: hr is the
HISTORY_ROOT value, limit is FILE_SIZE_LIMIT, retention is
FILE_HISTORY_RETENTION after load_settings (none = unset), fault injects a
source read failure into shutil.copyfile, nowStr and now are the current local
time.  Returns the final filesystem state together with the exception, if one
escaped. -/
def process_history (hr : List Char) (limit : Int) (retention : Option Int)
    (fault : Option Nat) (nowStr : List Char) (now : Int)
    (fs : FS) (fdir fname : List Char) : FS × Option PyErr :=
  match fsLookup fs fdir fname with
  | none => (fs, some PyErr.fileNotFound)
  | some src =>
    if (src.content.length : Int) > limit then (fs, none)
    else
      let history_dir := get_file_dir hr fdir
      let fs1 := ensure_history_dir fs history_dir
      match get_history_files fs1 history_dir fname with
      | Except.error e => (fs1, some e)
      | Except.ok history_files =>
        if skip_unchanged fs1 history_dir src history_files then (fs1, none)
        else
          let snapName := nowStr ++ '.' :: fname
          match fault with
          | some k =>
            (fsWrite fs1 history_dir snapName (src.content.take k) now,
              some PyErr.ioError)
          | none =>
            remove_old_files retention now history_dir history_files
              (fsWrite fs1 history_dir snapName src.content now)

/-- Observable outcome of one user-invoked history command. -/
inductive CmdOutcome where
  | statusMsg (msg : List Char)
  | showDiff (fromFile toFile : List Char)
  | openFile (p : List Char)
  | replaced (content : List Nat)
  | escape
  | err (e : PyErr)
deriving DecidableEq

/-- HistoryOpen.run (lines 124-144), with the user's quick-panel choice as a
parameter (none models the escape index -1). -/
def history_open_run (fs : FS) (hr fdir fname : List Char)
    (choice : Option Nat) : CmdOutcome :=
  match get_history_files fs (get_file_dir hr fdir) fname with
  | Except.error e => CmdOutcome.err e
  | Except.ok history_files =>
    if history_files = [] then CmdOutcome.statusMsg NO_HISTORY_MSG
    else
      match choice with
      | none => CmdOutcome.escape
      | some i =>
        match history_files.get? i with
        | some n => CmdOutcome.openFile (path_join (get_file_dir hr fdir) n)
        | none => CmdOutcome.err PyErr.indexError

/-- HistoryCompare.run (lines 149-178): the first (newest) entry is dropped
before the list is offered; a selection diffs the chosen snapshot against the
live file. -/
def history_compare_run (fs : FS) (hr fdir fname : List Char)
    (choice : Option Nat) : CmdOutcome :=
  match get_history_files fs (get_file_dir hr fdir) fname with
  | Except.error e => CmdOutcome.err e
  | Except.ok history_files0 =>
    let history_files := history_files0.drop 1
    if history_files = [] then CmdOutcome.statusMsg NO_HISTORY_MSG
    else
      match choice with
      | none => CmdOutcome.escape
      | some i =>
        match history_files.get? i with
        | some n =>
          CmdOutcome.showDiff (path_join (get_file_dir hr fdir) n)
            (path_join fdir fname)
        | none => CmdOutcome.err PyErr.indexError

/-- HistoryReplace.run (lines 183-212): the first (newest) entry is dropped;
a selection replaces the live buffer with the chosen snapshot's content. -/
def history_replace_run (fs : FS) (hr fdir fname : List Char)
    (choice : Option Nat) : CmdOutcome :=
  match get_history_files fs (get_file_dir hr fdir) fname with
  | Except.error e => CmdOutcome.err e
  | Except.ok history_files0 =>
    let history_files := history_files0.drop 1
    if history_files = [] then CmdOutcome.statusMsg NO_HISTORY_MSG
    else
      match choice with
      | none => CmdOutcome.escape
      | some i =>
        match history_files.get? i with
        | some n =>
          match fsLookup fs (get_file_dir hr fdir) n with
          | some data => CmdOutcome.replaced data.content
          | none => CmdOutcome.err PyErr.fileNotFound
        | none => CmdOutcome.err PyErr.indexError

/-- HistoryIncrementalDiff.run (lines 217-244): fewer than two listed entries,
or choosing the last (oldest) one, reports NO_INCREMENTAL_DIFF; otherwise the
diff goes from the entry at index+1 (older) to the entry at index. -/
def history_incremental_diff_run (fs : FS) (hr fdir fname : List Char)
    (choice : Option Nat) : CmdOutcome :=
  match get_history_files fs (get_file_dir hr fdir) fname with
  | Except.error e => CmdOutcome.err e
  | Except.ok history_files =>
    if history_files.length < 2 then CmdOutcome.statusMsg NO_INCREMENTAL_DIFF
    else
      match choice with
      | none => CmdOutcome.escape
      | some i =>
        if i = history_files.length - 1 then
          CmdOutcome.statusMsg NO_INCREMENTAL_DIFF
        else
          match history_files.get? (i + 1), history_files.get? i with
          | some older, some newer =>
            CmdOutcome.showDiff (path_join (get_file_dir hr fdir) older)
              (path_join (get_file_dir hr fdir) newer)
          | _, _ => CmdOutcome.err PyErr.indexError

/-
Concrete fixtures.  Each claim has its own fixture state so that the concrete
theorems stay independent.
-/

/-- C1 fixture: one source file, empty history, cwd away from the history
directory. -/
def fsC1 : FS :=
  ⟨[⟨("/p").data, ("a.txt").data, ⟨[1, 2], 50⟩⟩], [], ("/e").data⟩

/-- C1 fixture: first record call. -/
def phC1_first : FS × Option PyErr :=
  process_history (("/h").data) 100 (some 1000000) none
    (("2024-01-01_00.00.00").data) 100 fsC1 (("/p").data) (("a.txt").data)

/-- C1 fixture: second record call, one second later, content unchanged. -/
def phC1_second : FS × Option PyErr :=
  process_history (("/h").data) 100 (some 1000000) none
    (("2024-01-01_00.00.01").data) 101 phC1_first.1 (("/p").data) (("a.txt").data)

/-- C3 fixture: one snapshot in the history directory, cwd elsewhere and
empty. -/
def fsC3 : FS :=
  ⟨[⟨("/h3/p").data, ("t0.a.txt").data, ⟨[1], 10⟩⟩],
   [("/h3/p").data], ("/e3").data⟩

/-- C3 fixture variant: the cwd additionally holds a stray file whose name
matches the pattern but which does not exist in the history directory. -/
def fsC3b : FS :=
  ⟨[⟨("/h3/p").data, ("t0.a.txt").data, ⟨[1], 10⟩⟩,
    ⟨("/e3").data, ("x.a.txt").data, ⟨[2], 20⟩⟩],
   [("/h3/p").data], ("/e3").data⟩

/-- C7 fixture: two snapshots in the history directory, cwd elsewhere. -/
def fsC7 : FS :=
  ⟨[⟨("/h7/p").data, ("t0.a.txt").data, ⟨[1], 10⟩⟩,
    ⟨("/h7/p").data, ("t1.a.txt").data, ⟨[2], 20⟩⟩],
   [("/h7/p").data], ("/e7").data⟩

/-- C2 fixture: cwd equals the history directory (the listing defect is not in
play), one old snapshot with different content, retention window 0. -/
def fsC2 : FS :=
  ⟨[⟨("/p").data, ("a.txt").data, ⟨[1, 2], 10⟩⟩,
    ⟨("/h2/p").data, ("t0.a.txt").data, ⟨[9], 50⟩⟩],
   [("/h2/p").data], ("/h2/p").data⟩

/-- C2 fixture: record call with retention window 0 at now = 100. -/
def phC2 : FS × Option PyErr :=
  process_history (("/h2").data) 100 (some 0) none
    (("2024-01-02_03.04.05").data) 100 fsC2 (("/p").data) (("a.txt").data)

/-- C4 fixture: the most recent snapshot has different bytes but the same size
and mtime as the source file, so shallow filecmp.cmp calls them equal. -/
def fsC4 : FS :=
  ⟨[⟨("/p").data, ("a.txt").data, ⟨[1, 2], 77⟩⟩,
    ⟨("/h4/p").data, ("t0.a.txt").data, ⟨[3, 4], 77⟩⟩],
   [("/h4/p").data], ("/h4/p").data⟩

/-- C4 fixture: record call on the changed file. -/
def phC4 : FS × Option PyErr :=
  process_history (("/h4").data) 100 (some 5) none
    (("2024-01-04_00.00.00").data) 100 fsC4 (("/p").data) (("a.txt").data)

/-- C5 fixture: one source file with three bytes, empty history. -/
def fsC5 : FS :=
  ⟨[⟨("/p").data, ("a.txt").data, ⟨[7, 8, 9], 10⟩⟩],
   [("/h5/p").data], ("/h5/p").data⟩

/-- C5 fixture: record call whose source read fails after one byte
(deletion/permission race during shutil.copyfile). -/
def phC5 : FS × Option PyErr :=
  process_history (("/h5").data) 100 (some 1000) (some 1)
    (("2024-01-05_00.00.00").data) 100 fsC5 (("/p").data) (("a.txt").data)

/-- C6 fixture: one source file, empty history, cwd at the history
directory. -/
def fsC6 : FS :=
  ⟨[⟨("/p").data, ("a.txt").data, ⟨[1, 2], 10⟩⟩],
   [("/h6/p").data], ("/h6/p").data⟩

/-- C6 fixture: first record call at timestamp string
2024-01-06_00.00.00. -/
def phC6_first : FS × Option PyErr :=
  process_history (("/h6").data) 100 (some 1000) none
    (("2024-01-06_00.00.00").data) 100 fsC6 (("/p").data) (("a.txt").data)

/-- C6 fixture: the editor saves different content into the source file. -/
def fsC6_mid : FS :=
  fsWrite phC6_first.1 (("/p").data) (("a.txt").data) [3, 4, 5] 150

/-- C6 fixture: second record call within the same second (same strftime
output). -/
def phC6_second : FS × Option PyErr :=
  process_history (("/h6").data) 100 (some 1000) none
    (("2024-01-06_00.00.00").data) 200 fsC6_mid (("/p").data) (("a.txt").data)

/-- C8 fixture: unchanged source content, one snapshot far older than the
retention window, cwd at the history directory. -/
def fsC8 : FS :=
  ⟨[⟨("/p").data, ("a.txt").data, ⟨[1, 2], 10⟩⟩,
    ⟨("/h8/p").data, ("t0.a.txt").data, ⟨[1, 2], 5⟩⟩],
   [("/h8/p").data], ("/h8/p").data⟩

/-- C9 fixture: the history root for home directory /u. -/
def hrC9 : List Char := HISTORY_ROOT (("/u").data)

/-- C1: refutation at the failing input.  Two successive record calls with no
content change between them: because glob lists the working directory (which
holds no history files) instead of the mirrored history directory, the second
call does not see the first snapshot, skips nothing, and writes a second
snapshot: two snapshots of the file exist afterwards, not one. -/
theorem C1_unchanged_save_not_idempotent :
    phC1_first.2 = none ∧ phC1_second.2 = none ∧
    (dir_matches phC1_second.1
      (get_file_dir (("/h").data) (("/p").data)) (("a.txt").data)).length = 2 := by
  exact ⟨rfl, rfl, rfl⟩

/-- C3: refutation at the failing input.  The listing used by every command
(glob in the cwd, sorted by mtime at the history directory) returns the empty
list although the mirrored directory holds one matching snapshot; and with a
stray matching name in the cwd it raises FileNotFoundError instead of
returning an empty sequence. -/
theorem C3_listing_reads_cwd :
    get_history_files fsC3 (("/h3/p").data) (("a.txt").data) = Except.ok [] ∧
    dir_matches fsC3 (("/h3/p").data) (("a.txt").data) = [("t0.a.txt").data] ∧
    get_history_files fsC3b (("/h3/p").data) (("a.txt").data) =
      Except.error PyErr.fileNotFound := by
  exact ⟨rfl, rfl, rfl⟩

/-- C7: refutation at the failing input.  Two snapshots of the file exist in
its mirrored directory, yet the incremental-diff command reports
"No incremental diff found" for any selection, because its glob of the working
directory finds fewer than two entries. -/
theorem C7_no_diff_despite_two_snapshots :
    history_incremental_diff_run fsC7 (("/h7").data) (("/p").data)
      (("a.txt").data) (some 0) = CmdOutcome.statusMsg NO_INCREMENTAL_DIFF ∧
    (dir_matches fsC7 (("/h7/p").data) (("a.txt").data)).length = 2 := by
  exact ⟨rfl, rfl⟩

/-- C2: counterexample.  With retention window 0 the sweep is not disabled:
the record call deletes the previous snapshot (its mtime is in the past, and
the deletion test is mtime < now - 0), contradicting "window zero deletes
nothing at all". -/
theorem C2_zero_window_deletes :
    (fsLookup fsC2 (("/h2/p").data) (("t0.a.txt").data)).isSome = true ∧
    phC2.2 = none ∧
    fsLookup phC2.1 (("/h2/p").data) (("t0.a.txt").data) = none := by
  exact ⟨rfl, rfl, rfl⟩

/-- C4: counterexample.  The source file (size 2, mtime 77) has different
bytes than the most recent snapshot (size 2, mtime 77), i.e. its content
changed, yet the record call writes nothing: filecmp.cmp with its default
shallow=True treats equal (size, mtime) signatures as equal files. -/
theorem C4_shallow_cmp_skips_changed :
    fsLookup fsC4 (("/p").data) (("a.txt").data) = some ⟨[1, 2], 77⟩ ∧
    fsLookup fsC4 (("/h4/p").data) (("t0.a.txt").data) = some ⟨[3, 4], 77⟩ ∧
    phC4 = (fsC4, none) := by
  exact ⟨rfl, rfl, rfl⟩

/-- C5: counterexample.  A source read failure during the copy (after one of
three bytes) makes the record call fail with an I/O error, yet a partially
written snapshot holding only the first byte is left at the final snapshot
name in the history directory: the write is not atomic. -/
theorem C5_partial_snapshot_observable :
    fsLookup fsC5 (("/p").data) (("a.txt").data) = some ⟨[7, 8, 9], 10⟩ ∧
    phC5.2 = some PyErr.ioError ∧
    fsLookup phC5.1 (("/h5/p").data) (("2024-01-05_00.00.00.a.txt").data) =
      some ⟨[7], 100⟩ := by
  exact ⟨rfl, rfl, rfl⟩

/-- C6: counterexample.  Two record calls in the same second with differing
content: the second call writes to the identical timestamped name and silently
replaces the first snapshot's bytes; afterwards there is still a single
snapshot and it holds the later content. -/
theorem C6_same_second_overwrite :
    fsLookup phC6_first.1 (("/h6/p").data)
      (("2024-01-06_00.00.00.a.txt").data) = some ⟨[1, 2], 100⟩ ∧
    phC6_second.2 = none ∧
    fsLookup phC6_second.1 (("/h6/p").data)
      (("2024-01-06_00.00.00.a.txt").data) = some ⟨[3, 4, 5], 200⟩ ∧
    (dir_matches phC6_second.1 (("/h6/p").data) (("a.txt").data)).length = 1 := by
  exact ⟨rfl, rfl, rfl, rfl⟩

/-- C8: counterexample.  A record call that skips (content unchanged) returns
without running the retention sweep: a snapshot far older than the window
survives the call, so the sweep does not run at the end of every record
call. -/
theorem C8_skip_call_no_sweep :
    process_history (("/h8").data) 100 (some 100) none
      (("2024-01-08_00.00.00").data) 1000000 fsC8 (("/p").data)
      (("a.txt").data) = (fsC8, none) ∧
    mtimeD fsC8 (("/h8/p").data) (("t0.a.txt").data) < 1000000 - 100 ∧
    (fsLookup fsC8 (("/h8/p").data) (("t0.a.txt").data)).isSome = true := by
  exact ⟨rfl, by decide, rfl⟩

/-- C9: counterexample.  Two distinct absolute directories (one written with a
doubled leading slash) map to the same mirrored directory, and a
doubled-slash directory maps outside HistoryRoot: dropping a single leading
character and rejoining is neither injective nor root-preserving on all
absolute paths. -/
theorem C9_double_slash_collision :
    (("//u/.sublime/history/x").data ≠ ("/x").data) ∧
    get_file_dir hrC9 (("//u/.sublime/history/x").data) =
      get_file_dir hrC9 (("/x").data) ∧
    (hrC9.isPrefixOf (get_file_dir hrC9 (("//e").data))) = false := by
  exact ⟨by decide, rfl, rfl⟩

/-
Helper lemmas about the filesystem model and the sweep loop.
-/

/-- Looking up after a write: the written key has the new data, others are
unchanged. -/
theorem lookupIn_writeIn (l : List FileEntry) (d n : List Char) (v : FileData)
    (d' n' : List Char) :
    lookupIn (writeIn l d n v) d' n' =
      if d' = d ∧ n' = n then some v else lookupIn l d' n' := by
  induction l with
  | nil =>
    by_cases h : d' = d ∧ n' = n
    · obtain ⟨h1, h2⟩ := h; subst h1; subst h2
      simp [writeIn, lookupIn]
    · have h2 : ¬ (d = d' ∧ n = n') := fun hc => h ⟨hc.1.symm, hc.2.symm⟩
      simp [writeIn, lookupIn, h, h2]
  | cons e es ih =>
    by_cases he : e.dir = d ∧ e.name = n
    · by_cases h : d' = d ∧ n' = n
      · obtain ⟨h1, h2⟩ := h; subst h1; subst h2
        simp [writeIn, lookupIn, he]
      · have h3 : ¬ (e.dir = d' ∧ e.name = n') :=
          fun hc => h ⟨hc.1.symm.trans he.1, hc.2.symm.trans he.2⟩
        have h4 : ¬ (d = d' ∧ n = n') := fun hc => h ⟨hc.1.symm, hc.2.symm⟩
        simp [writeIn, lookupIn, he, h, h3, h4]
    · by_cases h : d' = d ∧ n' = n
      · obtain ⟨h1, h2⟩ := h; subst h1; subst h2
        simp [writeIn, lookupIn, he, ih]
      · simp [writeIn, lookupIn, he, h, ih]

/-- Looking up after a removal: the removed key is gone, others are
unchanged. -/
theorem lookupIn_removeIn (l : List FileEntry) (d n d' n' : List Char) :
    lookupIn (removeIn l d n) d' n' =
      if d' = d ∧ n' = n then none else lookupIn l d' n' := by
  induction l with
  | nil => simp [removeIn, lookupIn]
  | cons e es ih =>
    by_cases he : e.dir = d ∧ e.name = n
    · by_cases h : d' = d ∧ n' = n
      · obtain ⟨h1, h2⟩ := h; subst h1; subst h2
        simp [removeIn, lookupIn, he, ih]
      · have h3 : ¬ (e.dir = d' ∧ e.name = n') :=
          fun hc => h ⟨hc.1.symm.trans he.1, hc.2.symm.trans he.2⟩
        have h4 : ¬ (d = d' ∧ n = n') := fun hc => h ⟨hc.1.symm, hc.2.symm⟩
        simp [removeIn, lookupIn, he, h, h3, h4, ih]
    · by_cases h : d' = d ∧ n' = n
      · obtain ⟨h1, h2⟩ := h; subst h1; subst h2
        simp [removeIn, lookupIn, he, ih]
      · simp [removeIn, lookupIn, he, h, ih]

/-- fsWrite restated through fsLookup. -/
theorem fsLookup_fsWrite (fs : FS) (d n : List Char) (c : List Nat) (m : Int)
    (d' n' : List Char) :
    fsLookup (fsWrite fs d n c m) d' n' =
      if d' = d ∧ n' = n then some ⟨c, m⟩ else fsLookup fs d' n' :=
  lookupIn_writeIn fs.files d n ⟨c, m⟩ d' n'

/-- fsRemove restated through fsLookup. -/
theorem fsLookup_fsRemove (fs : FS) (d n d' n' : List Char) :
    fsLookup (fsRemove fs d n) d' n' =
      if d' = d ∧ n' = n then none else fsLookup fs d' n' :=
  lookupIn_removeIn fs.files d n d' n'

/-- Removing one file does not change other files' mtimes. -/
theorem mtimeD_fsRemove (fs : FS) (hd f d n : List Char)
    (h : ¬ (d = hd ∧ n = f)) :
    mtimeD (fsRemove fs hd f) d n = mtimeD fs d n := by
  unfold mtimeD
  rw [fsLookup_fsRemove, if_neg h]

/-- A present file entry makes lookup succeed. -/
theorem lookupIn_isSome_of_mem (l : List FileEntry) (e : FileEntry)
    (he : e ∈ l) : (lookupIn l e.dir e.name).isSome = true := by
  induction l with
  | nil => cases he
  | cons x xs ih =>
    by_cases hx : x.dir = e.dir ∧ x.name = e.name
    · simp [lookupIn, hx]
    · have hne : e ≠ x := fun h => hx (by rw [h]; exact ⟨rfl, rfl⟩)
      have : e ∈ xs := by
        rcases List.mem_cons.mp he with h | h
        · exact absurd h hne
        · exact h
      simp [lookupIn, hx, ih this]

/-- The sweep loop never touches the directory list or the cwd. -/
theorem remove_old_files_dirs (ret : Option Int) (now : Int) (hd : List Char)
    (names : List (List Char)) (fs : FS) :
    (remove_old_files ret now hd names fs).1.dirs = fs.dirs ∧
    (remove_old_files ret now hd names fs).1.cwd = fs.cwd := by
  induction names generalizing fs with
  | nil => exact ⟨rfl, rfl⟩
  | cons f rest ih =>
    cases hl : fsLookup fs hd f with
    | none => simp [remove_old_files, hl]
    | some data =>
      cases ret with
      | none => simp [remove_old_files, hl]
      | some r =>
        by_cases hm : data.mtime < now - r
        · simp only [remove_old_files, hl, if_pos hm]
          exact ih (fsRemove fs hd f)
        · simp only [remove_old_files, hl, if_neg hm]
          exact ih fs

/-- The sweep loop only ever deletes files inside its history directory. -/
theorem remove_old_files_scope (ret : Option Int) (now : Int) (hd : List Char)
    (names : List (List Char)) (fs : FS) (d n : List Char) (hne : d ≠ hd) :
    fsLookup (remove_old_files ret now hd names fs).1 d n = fsLookup fs d n := by
  induction names generalizing fs with
  | nil => rfl
  | cons f rest ih =>
    cases hl : fsLookup fs hd f with
    | none => simp only [remove_old_files, hl]
    | some data =>
      cases ret with
      | none => simp only [remove_old_files, hl]
      | some r =>
        by_cases hm : data.mtime < now - r
        · simp only [remove_old_files, hl, if_pos hm]
          rw [ih (fsRemove fs hd f), fsLookup_fsRemove,
            if_neg (fun hc => hne hc.1)]
        · simp only [remove_old_files, hl, if_neg hm]
          exact ih fs

/-- Membership in the descending insertion. -/
theorem mem_insertByDesc (key : List Char → Int) (x a : List Char)
    (l : List (List Char)) :
    a ∈ insertByDesc key x l ↔ a = x ∨ a ∈ l := by
  induction l with
  | nil => simp [insertByDesc]
  | cons y ys ih =>
    by_cases h : key x < key y
    · simp only [insertByDesc, if_pos h, List.mem_cons, ih]
      tauto
    · simp only [insertByDesc, if_neg h, List.mem_cons]

/-- The descending sort is a permutation membership-wise. -/
theorem mem_sortByDesc (key : List Char → Int) (a : List Char)
    (l : List (List Char)) : a ∈ sortByDesc key l ↔ a ∈ l := by
  induction l with
  | nil => simp [sortByDesc]
  | cons x xs ih => simp [sortByDesc, mem_insertByDesc, ih]

/-- A successful listing only returns names that resolve in the history
directory (the sort's getmtime calls succeeded on every name). -/
theorem get_history_files_isSome (fs : FS) (hd fname : List Char)
    (files : List (List Char))
    (h : get_history_files fs hd fname = Except.ok files) :
    ∀ m ∈ files, (fsLookup fs hd m).isSome = true := by
  unfold get_history_files sort_history_files at h
  by_cases hall :
      (glob_matches fs fname).all (fun n => (fsLookup fs hd n).isSome) = true
  · rw [if_pos hall] at h
    intro m hm
    have hfiles : sortByDesc (fun n => mtimeD fs hd n) (glob_matches fs fname)
        = files := by injection h
    have : m ∈ glob_matches fs fname := by
      rw [← hfiles] at hm
      exact (mem_sortByDesc _ _ _).mp hm
    exact (List.all_eq_true.mp hall) m this
  · rw [if_neg hall] at h
    cases h

/-- The sweep with a set window w, over names that all resolve and repeat no
name: it raises nothing, and a file is afterwards absent at (d, n) exactly
when the sweep visited n in directory hd and its mtime was older than
now - w; every other file is untouched. -/
theorem remove_old_files_ok (r now : Int) (hd : List Char)
    (names : List (List Char)) (fs : FS)
    (hnd : names.Nodup)
    (hp : ∀ m ∈ names, (fsLookup fs hd m).isSome = true) (d n : List Char) :
    (remove_old_files (some r) now hd names fs).2 = none ∧
    fsLookup (remove_old_files (some r) now hd names fs).1 d n =
      (if d = hd ∧ n ∈ names ∧ mtimeD fs hd n < now - r then none
       else fsLookup fs d n) := by
  induction names generalizing fs with
  | nil =>
    refine ⟨rfl, ?_⟩
    simp [remove_old_files]
  | cons f rest ih =>
    have hf : (fsLookup fs hd f).isSome = true := hp f (List.mem_cons_self f rest)
    obtain ⟨data, hdata⟩ := Option.isSome_iff_exists.mp hf
    have hfrest : f ∉ rest := (List.nodup_cons.mp hnd).1
    have hndr : rest.Nodup := (List.nodup_cons.mp hnd).2
    have hmt : mtimeD fs hd f = data.mtime := by
      unfold mtimeD
      rw [hdata]
    by_cases hm : data.mtime < now - r
    · have hp' : ∀ m ∈ rest, (fsLookup (fsRemove fs hd f) hd m).isSome = true := by
        intro m hmem
        rw [fsLookup_fsRemove, if_neg]
        · exact hp m (List.mem_cons_of_mem _ hmem)
        · rintro ⟨-, h2⟩
          exact hfrest (h2 ▸ hmem)
      obtain ⟨iherr, ihlook⟩ := ih (fsRemove fs hd f) hndr hp'
      refine ⟨?_, ?_⟩
      · simpa only [remove_old_files, hdata, if_pos hm] using iherr
      · rw [show fsLookup (remove_old_files (some r) now hd (f :: rest) fs).1 d n
            = fsLookup (remove_old_files (some r) now hd rest
                (fsRemove fs hd f)).1 d n by
          simp only [remove_old_files, hdata, if_pos hm]]
        rw [ihlook]
        by_cases hdhd : d = hd
        · subst hdhd
          by_cases hnf : n = f
          · subst hnf
            rw [fsLookup_fsRemove]
            simp [hfrest, hmt, hm, List.mem_cons]
          · rw [mtimeD_fsRemove fs d f d n (fun hc => hnf hc.2),
              fsLookup_fsRemove]
            simp [List.mem_cons, hnf]
        · rw [if_neg (fun hc => hdhd hc.1), if_neg (fun hc => hdhd hc.1),
            fsLookup_fsRemove, if_neg (fun hc => hdhd hc.1)]
    · obtain ⟨iherr, ihlook⟩ :=
        ih fs hndr (fun m hmem => hp m (List.mem_cons_of_mem _ hmem))
      refine ⟨?_, ?_⟩
      · simpa only [remove_old_files, hdata, if_neg hm] using iherr
      · rw [show fsLookup (remove_old_files (some r) now hd (f :: rest) fs).1 d n
            = fsLookup (remove_old_files (some r) now hd rest fs).1 d n by
          simp only [remove_old_files, hdata, if_neg hm]]
        rw [ihlook]
        by_cases hdhd : d = hd
        · subst hdhd
          by_cases hnf : n = f
          · subst hnf
            simp [hfrest, hmt, hm, List.mem_cons]
          · simp [List.mem_cons, hnf]
        · rw [if_neg (fun hc => hdhd hc.1), if_neg (fun hc => hdhd hc.1)]

/-- The sweep with the retention setting unset (None): Python evaluates
now - None for the first visited file and raises TypeError; nothing is
deleted. -/
theorem remove_old_files_none (now : Int) (hd : List Char)
    (f : List Char) (rest : List (List Char)) (fs : FS)
    (hf : (fsLookup fs hd f).isSome = true) :
    remove_old_files none now hd (f :: rest) fs = (fs, some PyErr.typeError) := by
  obtain ⟨data, hdata⟩ := Option.isSome_iff_exists.mp hf
  simp only [remove_old_files, hdata]

/-- Unfolding of process_history for a missing source file: os.path.getsize
raises before anything happens. -/
theorem process_history_absent (hr : List Char) (limit : Int)
    (ret : Option Int) (fault : Option Nat) (nowStr : List Char) (now : Int)
    (fs : FS) (fdir fname : List Char)
    (hsrc : fsLookup fs fdir fname = none) :
    process_history hr limit ret fault nowStr now fs fdir fname =
      (fs, some PyErr.fileNotFound) := by
  unfold process_history
  rw [hsrc]

/-- Unfolding of process_history for an oversized source file: the call warns
and returns without touching the state. -/
theorem process_history_oversize (hr : List Char) (limit : Int)
    (ret : Option Int) (fault : Option Nat) (nowStr : List Char) (now : Int)
    (fs : FS) (fdir fname : List Char) (src : FileData)
    (hsrc : fsLookup fs fdir fname = some src)
    (hsize : (src.content.length : Int) > limit) :
    process_history hr limit ret fault nowStr now fs fdir fname = (fs, none) := by
  unfold process_history
  rw [hsrc]
  simp only [if_pos hsize]

/-- Unfolding of process_history for a call whose shallow comparison against
the newest listed entry says "unchanged": the call returns after the possible
makedirs, with no write and no sweep. -/
theorem process_history_skip (hr : List Char) (limit : Int)
    (ret : Option Int) (fault : Option Nat) (nowStr : List Char) (now : Int)
    (fs : FS) (fdir fname : List Char) (src : FileData)
    (files : List (List Char))
    (hsrc : fsLookup fs fdir fname = some src)
    (hsize : ¬ ((src.content.length : Int) > limit))
    (hglob : get_history_files (ensure_history_dir fs (get_file_dir hr fdir))
      (get_file_dir hr fdir) fname = Except.ok files)
    (hskip : skip_unchanged (ensure_history_dir fs (get_file_dir hr fdir))
      (get_file_dir hr fdir) src files = true) :
    process_history hr limit ret fault nowStr now fs fdir fname =
      (ensure_history_dir fs (get_file_dir hr fdir), none) := by
  unfold process_history
  rw [hsrc]
  simp only [if_neg hsize]
  rw [hglob]
  simp only [hskip, if_pos]

/-- Unfolding of process_history for a call that reaches the copy: a faulted
copy leaves the partial file and the I/O error; a successful copy is followed
by the sweep over the names listed before the write. -/
theorem process_history_write (hr : List Char) (limit : Int)
    (ret : Option Int) (fault : Option Nat) (nowStr : List Char) (now : Int)
    (fs : FS) (fdir fname : List Char) (src : FileData)
    (files : List (List Char))
    (hsrc : fsLookup fs fdir fname = some src)
    (hsize : ¬ ((src.content.length : Int) > limit))
    (hglob : get_history_files (ensure_history_dir fs (get_file_dir hr fdir))
      (get_file_dir hr fdir) fname = Except.ok files)
    (hskip : skip_unchanged (ensure_history_dir fs (get_file_dir hr fdir))
      (get_file_dir hr fdir) src files = false) :
    process_history hr limit ret fault nowStr now fs fdir fname =
      match fault with
      | some k =>
        (fsWrite (ensure_history_dir fs (get_file_dir hr fdir))
          (get_file_dir hr fdir) (nowStr ++ '.' :: fname)
          (src.content.take k) now, some PyErr.ioError)
      | none =>
        remove_old_files ret now (get_file_dir hr fdir) files
          (fsWrite (ensure_history_dir fs (get_file_dir hr fdir))
            (get_file_dir hr fdir) (nowStr ++ '.' :: fname)
            src.content now) := by
  unfold process_history
  rw [hsrc]
  simp only [if_neg hsize]
  rw [hglob]
  simp only [hskip, Bool.false_eq_true, if_false]

/-- ensure_history_dir does not change the files. -/
theorem fsLookup_ensure (fs : FS) (hd d n : List Char) :
    fsLookup (ensure_history_dir fs hd) d n = fsLookup fs d n := by
  unfold ensure_history_dir
  by_cases h : hd ∈ fs.dirs
  · rw [if_pos h]
  · rw [if_neg h]
    rfl

/-- ensure_history_dir only ever adds a directory. -/
theorem mem_dirs_ensure (fs : FS) (hd d0 : List Char) (h : d0 ∈ fs.dirs) :
    d0 ∈ (ensure_history_dir fs hd).dirs := by
  unfold ensure_history_dir
  by_cases hm : hd ∈ fs.dirs
  · rw [if_pos hm]
    exact h
  · rw [if_neg hm]
    exact List.mem_cons_of_mem _ h

/-- posixpath.join of a well-formed directory and a relative component. -/
theorem path_join_rel (a b : List Char) (ha1 : a ≠ [])
    (ha2 : a.getLast? ≠ some '/') (hb : b.head? ≠ some '/') :
    path_join a b = a ++ '/' :: b := by
  unfold path_join
  rw [if_neg hb, if_neg]
  rintro (h | h)
  · exact ha1 h
  · exact ha2 h

/-- C2: amended retention semantics.  For a record call's sweep over the names
it globbed (all resolving in the history directory, no repeats): with a set
window w the sweep raises nothing and a visited file is afterwards present
exactly when its mtime is at least now - w — so window w = 0 deletes every
visited file whose mtime is in the past, rather than disabling pruning; with
the window unset (None) the sweep raises TypeError at its first visited file
and deletes nothing. -/
theorem C2_retention_amended (r now : Int) (hd n : List Char)
    (names : List (List Char)) (fs : FS)
    (hnd : names.Nodup)
    (hp : ∀ m ∈ names, (fsLookup fs hd m).isSome = true)
    (hn : n ∈ names) :
    (remove_old_files (some r) now hd names fs).2 = none ∧
    ((fsLookup (remove_old_files (some r) now hd names fs).1 hd n).isSome = true
      ↔ ¬ (mtimeD fs hd n < now - r)) ∧
    remove_old_files none now hd names fs = (fs, some PyErr.typeError) := by
  obtain ⟨herr, hlook⟩ := remove_old_files_ok r now hd names fs hnd hp hd n
  refine ⟨herr, ?_, ?_⟩
  · rw [hlook]
    by_cases hm : mtimeD fs hd n < now - r
    · simp [hm, hn]
    · simp [hm, hn, hp n hn]
  · cases names with
    | nil => cases hn
    | cons f rest =>
      exact remove_old_files_none now hd f rest fs (hp f (List.mem_cons_self f rest))

/-- C2 witness state: one old file in the history directory. -/
def fsW2 : FS := ⟨[⟨("/h").data, ("o.a").data, ⟨[1], 10⟩⟩], [], []⟩

/-- C2: witness instantiating the amended retention theorem at window 5,
now = 100, one visited file of mtime 10 (which is therefore deleted). -/
theorem C2_retention_witness :
    (remove_old_files (some 5) 100 (("/h").data) [("o.a").data] fsW2).2 = none ∧
    ((fsLookup (remove_old_files (some 5) 100 (("/h").data) [("o.a").data]
        fsW2).1 (("/h").data) (("o.a").data)).isSome = true
      ↔ ¬ (mtimeD fsW2 (("/h").data) (("o.a").data) < 100 - 5)) ∧
    remove_old_files none 100 (("/h").data) [("o.a").data] fsW2 =
      (fsW2, some PyErr.typeError) :=
  C2_retention_amended 5 100 (("/h").data) (("o.a").data) [("o.a").data] fsW2
    (by decide) (by decide) (by decide)

/-- C9: amended path mapping.  For source directories written with a single
leading slash (the canonical absolute form), the mapping is the pure function
appending the root-trimmed directory under HistoryRoot: the result is a
strict descendant of HistoryRoot, and two distinct such directories map to
two distinct results.  (Directories written with a doubled leading slash
escape the root and can collide, see the counterexample.) -/
theorem C9_mapping_amended (hr t1 t2 : List Char)
    (hhr1 : hr ≠ []) (hhr2 : hr.getLast? ≠ some '/')
    (h1 : t1.head? ≠ some '/') (h2 : t2.head? ≠ some '/') (hne : t1 ≠ t2) :
    get_file_dir hr ('/' :: t1) = hr ++ '/' :: t1 ∧
    get_file_dir hr ('/' :: t1) ≠ get_file_dir hr ('/' :: t2) := by
  have e1 : get_file_dir hr ('/' :: t1) = hr ++ '/' :: t1 := by
    unfold get_file_dir
    exact path_join_rel hr t1 hhr1 hhr2 h1
  have e2 : get_file_dir hr ('/' :: t2) = hr ++ '/' :: t2 := by
    unfold get_file_dir
    exact path_join_rel hr t2 hhr1 hhr2 h2
  refine ⟨e1, ?_⟩
  rw [e1, e2]
  intro h
  have h3 := List.append_cancel_left h
  injection h3 with _ h4
  exact hne h4

/-- C9: witness instantiating the amended mapping theorem at the directories
/a and /b under the history root for home /u. -/
theorem C9_mapping_witness :
    get_file_dir (HISTORY_ROOT (("/u").data)) ('/' :: ("a").data) =
      HISTORY_ROOT (("/u").data) ++ '/' :: ("a").data ∧
    get_file_dir (HISTORY_ROOT (("/u").data)) ('/' :: ("a").data) ≠
      get_file_dir (HISTORY_ROOT (("/u").data)) ('/' :: ("b").data) :=
  C9_mapping_amended (HISTORY_ROOT (("/u").data)) (("a").data) (("b").data)
    (by decide) (by decide) (by decide) (by decide) (by decide)

/-- After the snapshot write, every name the call globbed still resolves in
the history directory. -/
theorem write_preserves_listing (fs : FS) (hr fdir fname nowStr : List Char)
    (src0 : List Nat) (now0 : Int) (files : List (List Char))
    (hglob : get_history_files (ensure_history_dir fs (get_file_dir hr fdir))
      (get_file_dir hr fdir) fname = Except.ok files) :
    ∀ m ∈ files,
      (fsLookup (fsWrite (ensure_history_dir fs (get_file_dir hr fdir))
        (get_file_dir hr fdir) (nowStr ++ '.' :: fname) src0 now0)
        (get_file_dir hr fdir) m).isSome = true := by
  intro m hmem
  rw [fsLookup_fsWrite]
  by_cases hms : get_file_dir hr fdir = get_file_dir hr fdir ∧
      m = nowStr ++ '.' :: fname
  · rw [if_pos hms]
    rfl
  · rw [if_neg hms]
    exact get_history_files_isSome _ _ _ _ hglob m hmem

/-- The just-written snapshot carries mtime now. -/
theorem mtimeD_fsWrite_self (fs : FS) (d n : List Char) (c : List Nat)
    (m : Int) : mtimeD (fsWrite fs d n c m) d n = m := by
  unfold mtimeD
  rw [fsLookup_fsWrite, if_pos ⟨rfl, rfl⟩]

/-- C4: amended size-limit enforcement.  A record call on a file whose byte
size exceeds the configured limit never writes anything: it returns with no
error and the state untouched.  A file within the limit produces a snapshot
when the call reaches the copy — that is, when every globbed name resolves in
the history directory and the shallow comparison against the newest listed
entry fails (different stat signature and different bytes); the snapshot then
holds the source bytes and survives the sweep for any window w with 0 ≤ w.
(The shallow comparison can wrongly skip a changed file whose size and mtime
match the newest snapshot — see the counterexample.) -/
theorem C4_size_limit_amended
    (hr : List Char) (limit r : Int) (ret : Option Int) (fault : Option Nat)
    (nowStr : List Char) (now : Int) (fsA fsB : FS)
    (fdirA fnameA fdirB fnameB : List Char) (srcA srcB : FileData)
    (files : List (List Char))
    (hA : fsLookup fsA fdirA fnameA = some srcA)
    (hAsize : (srcA.content.length : Int) > limit)
    (hB : fsLookup fsB fdirB fnameB = some srcB)
    (hBsize : ¬ ((srcB.content.length : Int) > limit))
    (hBglob : get_history_files (ensure_history_dir fsB (get_file_dir hr fdirB))
      (get_file_dir hr fdirB) fnameB = Except.ok files)
    (hBskip : skip_unchanged (ensure_history_dir fsB (get_file_dir hr fdirB))
      (get_file_dir hr fdirB) srcB files = false)
    (hnd : files.Nodup) (hr0 : 0 ≤ r) :
    process_history hr limit ret fault nowStr now fsA fdirA fnameA =
      (fsA, none) ∧
    (process_history hr limit (some r) none nowStr now fsB fdirB fnameB).2 =
      none ∧
    fsLookup
      (process_history hr limit (some r) none nowStr now fsB fdirB fnameB).1
      (get_file_dir hr fdirB) (nowStr ++ '.' :: fnameB) =
      some ⟨srcB.content, now⟩ := by
  have hwe : process_history hr limit (some r) none nowStr now fsB fdirB fnameB
      = remove_old_files (some r) now (get_file_dir hr fdirB) files
        (fsWrite (ensure_history_dir fsB (get_file_dir hr fdirB))
          (get_file_dir hr fdirB) (nowStr ++ '.' :: fnameB)
          srcB.content now) :=
    process_history_write hr limit (some r) none nowStr now fsB fdirB fnameB
      srcB files hB hBsize hBglob hBskip
  have hpres := write_preserves_listing fsB hr fdirB fnameB nowStr
    srcB.content now files hBglob
  obtain ⟨herr, hlook⟩ := remove_old_files_ok r now (get_file_dir hr fdirB)
    files _ hnd hpres (get_file_dir hr fdirB) (nowStr ++ '.' :: fnameB)
  refine ⟨process_history_oversize hr limit ret fault nowStr now fsA fdirA
    fnameA srcA hA hAsize, ?_, ?_⟩
  · rw [hwe]
    exact herr
  · rw [hwe, hlook, if_neg, fsLookup_fsWrite, if_pos ⟨rfl, rfl⟩]
    rintro ⟨-, -, hlt⟩
    rw [mtimeD_fsWrite_self] at hlt
    omega

/-- C4 witness state: an oversized file. -/
def fsW4a : FS := ⟨[⟨("/p").data, ("big.txt").data, ⟨[1, 2, 3], 10⟩⟩], [], []⟩

/-- C4 witness state: a small changed file with one older snapshot, cwd at the
history directory. -/
def fsW4b : FS :=
  ⟨[⟨("/p").data, ("b.txt").data, ⟨[5], 10⟩⟩,
    ⟨("/w4/p").data, ("t0.b.txt").data, ⟨[6, 7], 20⟩⟩],
   [("/w4/p").data], ("/w4/p").data⟩

/-- C4: witness instantiating the amended size-limit theorem: the 3-byte file
is skipped at limit 2 with no error, and the 1-byte changed file produces a
snapshot with its content. -/
theorem C4_size_limit_witness :
    process_history (("/w4").data) 2 (some 0) none
      (("2024-02-01_00.00.00").data) 100 fsW4a (("/p").data)
      (("big.txt").data) = (fsW4a, none) ∧
    (process_history (("/w4").data) 2 (some 1000) none
      (("2024-02-01_00.00.00").data) 100 fsW4b (("/p").data)
      (("b.txt").data)).2 = none ∧
    fsLookup (process_history (("/w4").data) 2 (some 1000) none
      (("2024-02-01_00.00.00").data) 100 fsW4b (("/p").data)
      (("b.txt").data)).1
      (get_file_dir (("/w4").data) (("/p").data))
      ((("2024-02-01_00.00.00").data) ++ '.' :: (("b.txt").data)) =
      some ⟨[5], 100⟩ :=
  C4_size_limit_amended (("/w4").data) 2 1000 (some 0) none
    (("2024-02-01_00.00.00").data) 100 fsW4a fsW4b (("/p").data)
    (("big.txt").data) (("/p").data) (("b.txt").data) ⟨[1, 2, 3], 10⟩
    ⟨[5], 10⟩ [("t0.b.txt").data] (by rfl) (by decide) (by rfl) (by decide)
    (by rfl) (by rfl) (by decide) (by decide)

/-- C5: amended capture failure semantics.  If the source file cannot be
stat'ed at the start of the call (deleted or unreadable), the call fails with
an I/O error and touches nothing.  But the snapshot write is not atomic: the
copy goes directly to the final snapshot name, so when the source read fails
after k bytes mid-copy, the call errors and a partially written snapshot
holding only the first k bytes remains observable in the history
directory. -/
theorem C5_read_failure_amended
    (hr : List Char) (limit : Int) (ret retA : Option Int) (k : Nat)
    (faultA : Option Nat) (nowStr : List Char) (now : Int) (fsA fsB : FS)
    (fdirA fnameA fdirB fnameB : List Char) (srcB : FileData)
    (files : List (List Char))
    (hA : fsLookup fsA fdirA fnameA = none)
    (hB : fsLookup fsB fdirB fnameB = some srcB)
    (hBsize : ¬ ((srcB.content.length : Int) > limit))
    (hBglob : get_history_files (ensure_history_dir fsB (get_file_dir hr fdirB))
      (get_file_dir hr fdirB) fnameB = Except.ok files)
    (hBskip : skip_unchanged (ensure_history_dir fsB (get_file_dir hr fdirB))
      (get_file_dir hr fdirB) srcB files = false) :
    process_history hr limit retA faultA nowStr now fsA fdirA fnameA =
      (fsA, some PyErr.fileNotFound) ∧
    (process_history hr limit ret (some k) nowStr now fsB fdirB fnameB).2 =
      some PyErr.ioError ∧
    fsLookup
      (process_history hr limit ret (some k) nowStr now fsB fdirB fnameB).1
      (get_file_dir hr fdirB) (nowStr ++ '.' :: fnameB) =
      some ⟨srcB.content.take k, now⟩ := by
  have hwf : process_history hr limit ret (some k) nowStr now fsB fdirB fnameB
      = (fsWrite (ensure_history_dir fsB (get_file_dir hr fdirB))
          (get_file_dir hr fdirB) (nowStr ++ '.' :: fnameB)
          (srcB.content.take k) now, some PyErr.ioError) :=
    process_history_write hr limit ret (some k) nowStr now fsB fdirB fnameB
      srcB files hB hBsize hBglob hBskip
  refine ⟨process_history_absent hr limit retA faultA nowStr now fsA fdirA
    fnameA hA, ?_, ?_⟩
  · rw [hwf]
  · rw [hwf]
    rw [show (fsWrite (ensure_history_dir fsB (get_file_dir hr fdirB))
        (get_file_dir hr fdirB) (nowStr ++ '.' :: fnameB)
        (srcB.content.take k) now, some PyErr.ioError).1 =
      fsWrite (ensure_history_dir fsB (get_file_dir hr fdirB))
        (get_file_dir hr fdirB) (nowStr ++ '.' :: fnameB)
        (srcB.content.take k) now from rfl]
    rw [fsLookup_fsWrite, if_pos ⟨rfl, rfl⟩]

/-- C5 witness state: a missing source path is modelled by an empty
filesystem. -/
def fsW5a : FS := ⟨[], [], []⟩

/-- C5 witness state: a 3-byte source file with empty history. -/
def fsW5b : FS :=
  ⟨[⟨("/p").data, ("c.txt").data, ⟨[9, 9, 9], 10⟩⟩],
   [("/w5/p").data], ("/w5/p").data⟩

/-- C5: witness instantiating the amended capture-failure theorem: the stat of
a missing file aborts with no state change, and a copy faulted after one byte
leaves a one-byte partial snapshot plus an I/O error. -/
theorem C5_read_failure_witness :
    process_history (("/w5").data) 100 (some 7) (some 0)
      (("2024-03-01_00.00.00").data) 100 fsW5a (("/p").data)
      (("c.txt").data) = (fsW5a, some PyErr.fileNotFound) ∧
    (process_history (("/w5").data) 100 (some 7) (some 1)
      (("2024-03-01_00.00.00").data) 100 fsW5b (("/p").data)
      (("c.txt").data)).2 = some PyErr.ioError ∧
    fsLookup (process_history (("/w5").data) 100 (some 7) (some 1)
      (("2024-03-01_00.00.00").data) 100 fsW5b (("/p").data)
      (("c.txt").data)).1
      (get_file_dir (("/w5").data) (("/p").data))
      ((("2024-03-01_00.00.00").data) ++ '.' :: (("c.txt").data)) =
      some ⟨([9, 9, 9] : List Nat).take 1, 100⟩ :=
  C5_read_failure_amended (("/w5").data) 100 (some 7) (some 7) 1 (some 0)
    (("2024-03-01_00.00.00").data) 100 fsW5a fsW5b (("/p").data)
    (("c.txt").data) (("/p").data) (("c.txt").data) ⟨[9, 9, 9], 10⟩ []
    (by rfl) (by rfl) (by decide) (by rfl) (by rfl)

/-- C6: amended same-second collision semantics.  Snapshot names have
one-second resolution and the code does not disambiguate: a record call that
reaches the copy writes to the timestamped name even when a snapshot with that
exact name already holds different bytes — afterwards that name holds the new
source content, the earlier bytes being silently replaced. -/
theorem C6_overwrite_amended
    (hr : List Char) (limit r : Int) (nowStr : List Char) (now : Int)
    (fs : FS) (fdir fname : List Char) (src old : FileData)
    (files : List (List Char))
    (hsrc : fsLookup fs fdir fname = some src)
    (hsize : ¬ ((src.content.length : Int) > limit))
    (hglob : get_history_files (ensure_history_dir fs (get_file_dir hr fdir))
      (get_file_dir hr fdir) fname = Except.ok files)
    (hskip : skip_unchanged (ensure_history_dir fs (get_file_dir hr fdir))
      (get_file_dir hr fdir) src files = false)
    (hold : fsLookup (ensure_history_dir fs (get_file_dir hr fdir))
      (get_file_dir hr fdir) (nowStr ++ '.' :: fname) = some old)
    (hdiff : old.content ≠ src.content)
    (hnd : files.Nodup) (hr0 : 0 ≤ r) :
    (process_history hr limit (some r) none nowStr now fs fdir fname).2 =
      none ∧
    fsLookup (process_history hr limit (some r) none nowStr now fs fdir
      fname).1 (get_file_dir hr fdir) (nowStr ++ '.' :: fname) =
      some ⟨src.content, now⟩ := by
  have hwe : process_history hr limit (some r) none nowStr now fs fdir fname
      = remove_old_files (some r) now (get_file_dir hr fdir) files
        (fsWrite (ensure_history_dir fs (get_file_dir hr fdir))
          (get_file_dir hr fdir) (nowStr ++ '.' :: fname) src.content now) :=
    process_history_write hr limit (some r) none nowStr now fs fdir fname
      src files hsrc hsize hglob hskip
  have hpres := write_preserves_listing fs hr fdir fname nowStr
    src.content now files hglob
  obtain ⟨herr, hlook⟩ := remove_old_files_ok r now (get_file_dir hr fdir)
    files _ hnd hpres (get_file_dir hr fdir) (nowStr ++ '.' :: fname)
  refine ⟨?_, ?_⟩
  · rw [hwe]
    exact herr
  · rw [hwe, hlook, if_neg, fsLookup_fsWrite, if_pos ⟨rfl, rfl⟩]
    rintro ⟨-, -, hlt⟩
    rw [mtimeD_fsWrite_self] at hlt
    omega

/-- C6: witness instantiating the amended overwrite theorem at the C6 fixture:
the second same-second call replaces the snapshot's bytes with the new
content. -/
theorem C6_overwrite_witness :
    (process_history (("/h6").data) 100 (some 1000) none
      (("2024-01-06_00.00.00").data) 200 fsC6_mid (("/p").data)
      (("a.txt").data)).2 = none ∧
    fsLookup (process_history (("/h6").data) 100 (some 1000) none
      (("2024-01-06_00.00.00").data) 200 fsC6_mid (("/p").data)
      (("a.txt").data)).1
      (get_file_dir (("/h6").data) (("/p").data))
      ((("2024-01-06_00.00.00").data) ++ '.' :: (("a.txt").data)) =
      some ⟨[3, 4, 5], 200⟩ :=
  C6_overwrite_amended (("/h6").data) 100 1000 (("2024-01-06_00.00.00").data)
    200 fsC6_mid (("/p").data) (("a.txt").data) ⟨[3, 4, 5], 150⟩
    ⟨[1, 2], 100⟩ [("2024-01-06_00.00.00.a.txt").data] (by rfl) (by decide)
    (by rfl) (by rfl) (by rfl) (by decide) (by decide) (by decide)

/-- C8: amended sweep invocation.  On any record call — whatever its outcome —
no directory is ever deleted (every directory present before is present
after), and every file outside the call's mirrored history directory is left
exactly as it was: all writes and deletions are scoped to that directory.
(The sweep itself however runs only on calls that reach the snapshot write:
early returns skip it, see the counterexample.) -/
theorem C8_sweep_scope_amended
    (hr : List Char) (limit : Int) (ret : Option Int) (fault : Option Nat)
    (nowStr : List Char) (now : Int) (fs : FS) (fdir fname d n d0 : List Char)
    (hdne : d ≠ get_file_dir hr fdir) (hd0 : d0 ∈ fs.dirs) :
    fsLookup (process_history hr limit ret fault nowStr now fs fdir fname).1
      d n = fsLookup fs d n ∧
    d0 ∈ (process_history hr limit ret fault nowStr now fs fdir fname).1.dirs := by
  cases hsrc : fsLookup fs fdir fname with
  | none =>
    rw [process_history_absent hr limit ret fault nowStr now fs fdir fname hsrc]
    exact ⟨rfl, hd0⟩
  | some src =>
    by_cases hsize : (src.content.length : Int) > limit
    · rw [process_history_oversize hr limit ret fault nowStr now fs fdir
        fname src hsrc hsize]
      exact ⟨rfl, hd0⟩
    · cases hglob : get_history_files
          (ensure_history_dir fs (get_file_dir hr fdir))
          (get_file_dir hr fdir) fname with
      | error e =>
        have herr : process_history hr limit ret fault nowStr now fs fdir fname
            = (ensure_history_dir fs (get_file_dir hr fdir), some e) := by
          unfold process_history
          rw [hsrc]
          simp only [if_neg hsize]
          rw [hglob]
        rw [herr]
        exact ⟨fsLookup_ensure fs (get_file_dir hr fdir) d n,
          mem_dirs_ensure fs (get_file_dir hr fdir) d0 hd0⟩
      | ok files =>
        cases hskip : skip_unchanged
            (ensure_history_dir fs (get_file_dir hr fdir))
            (get_file_dir hr fdir) src files with
        | true =>
          rw [process_history_skip hr limit ret fault nowStr now fs fdir
            fname src files hsrc hsize hglob hskip]
          exact ⟨fsLookup_ensure fs (get_file_dir hr fdir) d n,
            mem_dirs_ensure fs (get_file_dir hr fdir) d0 hd0⟩
        | false =>
          cases fault with
          | some k =>
            have hw : process_history hr limit ret (some k) nowStr now fs fdir
                fname = (fsWrite (ensure_history_dir fs (get_file_dir hr fdir))
                  (get_file_dir hr fdir) (nowStr ++ '.' :: fname)
                  (src.content.take k) now, some PyErr.ioError) :=
              process_history_write hr limit ret (some k) nowStr now fs fdir
                fname src files hsrc hsize hglob hskip
            rw [hw]
            refine ⟨?_, ?_⟩
            · rw [show (fsWrite (ensure_history_dir fs (get_file_dir hr fdir))
                  (get_file_dir hr fdir) (nowStr ++ '.' :: fname)
                  (src.content.take k) now, some PyErr.ioError).1 =
                fsWrite (ensure_history_dir fs (get_file_dir hr fdir))
                  (get_file_dir hr fdir) (nowStr ++ '.' :: fname)
                  (src.content.take k) now from rfl]
              rw [fsLookup_fsWrite, if_neg (fun hc => hdne hc.1),
                fsLookup_ensure]
            · exact mem_dirs_ensure fs (get_file_dir hr fdir) d0 hd0
          | none =>
            have hw : process_history hr limit ret none nowStr now fs fdir
                fname = remove_old_files ret now (get_file_dir hr fdir) files
                  (fsWrite (ensure_history_dir fs (get_file_dir hr fdir))
                    (get_file_dir hr fdir) (nowStr ++ '.' :: fname)
                    src.content now) :=
              process_history_write hr limit ret none nowStr now fs fdir
                fname src files hsrc hsize hglob hskip
            rw [hw]
            refine ⟨?_, ?_⟩
            · rw [remove_old_files_scope ret now (get_file_dir hr fdir) files
                _ d n hdne, fsLookup_fsWrite, if_neg (fun hc => hdne hc.1),
                fsLookup_ensure]
            · rw [(remove_old_files_dirs ret now (get_file_dir hr fdir) files
                _).1]
              exact mem_dirs_ensure fs (get_file_dir hr fdir) d0 hd0

/-- C8: witness instantiating the amended sweep-scope theorem at the C8
fixture: a file in an unrelated directory is untouched and the mirrored
directory is still present after the call. -/
theorem C8_sweep_scope_witness :
    fsLookup (process_history (("/h8").data) 100 (some 100) none
      (("2024-01-08_00.00.00").data) 1000000 fsC8 (("/p").data)
      (("a.txt").data)).1 (("/other").data) (("x").data) =
      fsLookup fsC8 (("/other").data) (("x").data) ∧
    ("/h8/p").data ∈ (process_history (("/h8").data) 100 (some 100) none
      (("2024-01-08_00.00.00").data) 1000000 fsC8 (("/p").data)
      (("a.txt").data)).1.dirs :=
  C8_sweep_scope_amended (("/h8").data) 100 (some 100) none
    (("2024-01-08_00.00.00").data) 1000000 fsC8 (("/p").data)
    (("a.txt").data) (("/other").data) (("x").data) (("/h8/p").data)
    (by decide) (by decide)

/-- C10: confirmed.  When the working directory is the file's mirrored history
directory (the regime in which the commands' listing sees the snapshots) and
exactly one snapshot of the file exists there, the Compare-with-live and
Replace commands drop the newest (first) entry of the candidate list, find it
empty, report "No local history found", and do not proceed — for every user
selection — even though a snapshot is present. -/
theorem C10_skip_newest_no_history
    (hr fdir fname n0 : List Char) (fs : FS) (choice : Option Nat)
    (hcwd : fs.cwd = get_file_dir hr fdir)
    (hone : dir_matches fs (get_file_dir hr fdir) fname = [n0]) :
    history_compare_run fs hr fdir fname choice =
      CmdOutcome.statusMsg NO_HISTORY_MSG ∧
    history_replace_run fs hr fdir fname choice =
      CmdOutcome.statusMsg NO_HISTORY_MSG := by
  have hglob : glob_matches fs fname = [n0] := by
    unfold glob_matches
    rw [hcwd]
    exact hone
  have hpres : (fsLookup fs (get_file_dir hr fdir) n0).isSome = true := by
    unfold dir_matches at hone
    obtain ⟨e, he, hename⟩ : ∃ e,
        e ∈ fs.files.filter (snapshot_entry (get_file_dir hr fdir) fname) ∧
        e.name = n0 := by
      cases hl : fs.files.filter (snapshot_entry (get_file_dir hr fdir) fname)
          with
      | nil =>
        rw [hl] at hone
        cases hone
      | cons x xs =>
        rw [hl] at hone
        simp only [List.map_cons] at hone
        injection hone with h1 h2
        exact ⟨x, List.mem_cons_self x xs, h1⟩
    have hemem : e ∈ fs.files := (List.mem_filter.mp he).1
    have hedir : e.dir = get_file_dir hr fdir := by
      have hsp := (List.mem_filter.mp he).2
      unfold snapshot_entry at hsp
      rw [Bool.and_eq_true, Bool.and_eq_true] at hsp
      exact of_decide_eq_true hsp.1.1
    have hli := lookupIn_isSome_of_mem fs.files e hemem
    rw [hedir, hename] at hli
    exact hli
  have hlist : get_history_files fs (get_file_dir hr fdir) fname =
      Except.ok [n0] := by
    unfold get_history_files sort_history_files
    rw [hglob, if_pos]
    · rfl
    · simp [hpres]
  refine ⟨?_, ?_⟩
  · unfold history_compare_run
    rw [hlist]
    rfl
  · unfold history_replace_run
    rw [hlist]
    rfl

/-- C10 witness state: exactly one snapshot, cwd at the mirrored directory. -/
def fsW10 : FS :=
  ⟨[⟨("/hw/p").data, ("t0.a.txt").data, ⟨[1], 10⟩⟩],
   [("/hw/p").data], ("/hw/p").data⟩

/-- C10: witness instantiating the skip-newest theorem: with one snapshot
present, both commands report "No local history found". -/
theorem C10_skip_newest_witness :
    history_compare_run fsW10 (("/hw").data) (("/p").data) (("a.txt").data)
      (some 0) = CmdOutcome.statusMsg NO_HISTORY_MSG ∧
    history_replace_run fsW10 (("/hw").data) (("/p").data) (("a.txt").data)
      (some 0) = CmdOutcome.statusMsg NO_HISTORY_MSG :=
  C10_skip_newest_no_history (("/hw").data) (("/p").data) (("a.txt").data)
    (("t0.a.txt").data) fsW10 (some 0) (by rfl) (by rfl)
